import Mathlib

/-!
Verification development for the graphenebot moderation core
(`src/graphenebot.py`): a shallow embedding of the per-chat settings
store, the notification throttle, the ordered rule classifier of
`handle_any_msg`, and the side-effect sequence of a flagged message
(event persistence, public notice, audit dispatch, deletion).

Numbers refer to lines of `src/graphenebot.py`.
-/

/-- A setting value as stored in the per-group config: the code stores
booleans (rule toggles), an integer (`log_channel_id`), a list of strings
(`logformat`) or `None`. -/
inductive SettingVal where
  | b (v : Bool)
  | i (v : Int)
  | strs (v : List String)
  | nil
deriving DecidableEq

/-- Python truthiness of a stored setting value, as used by
`if get_setting(...)` tests in the handler. -/
def SettingVal.truthy : SettingVal → Bool
  | .b v => v
  | .i v => v != 0
  | .strs l => !l.isEmpty
  | .nil => false

/-- The in-memory `group_config` dict keyed by `(group_id, key)`
(graphenebot.py line 100-108), as an association list where the most
recent write is at the head. -/
abbrev GroupConfig := List ((Int × String) × SettingVal)

/-- Dictionary lookup in the config association list. -/
def cfg_lookup : GroupConfig → (Int × String) → Option SettingVal
  | [], _ => none
  | (k, v) :: rest, key => if k = key then some v else cfg_lookup rest key

/-- `GROUP_SETTING_KEYS` (line 70): the closed set of valid setting keys. -/
def GROUP_SETTING_KEYS : List String :=
  ["publog", "log_channel_id", "logformat", "channels", "groups", "links",
   "forwarded", "emails", "kick"]

/-- `get_setting` (lines 124-129): return the cached value for
`(group_id, key)` or the default when no record exists. -/
def get_setting (cfg : GroupConfig) (gid : Int) (key : String)
    (default : SettingVal) : SettingVal :=
  (cfg_lookup cfg (gid, key)).getD default

/-- The failure modes of `set_setting`: the key-enum assertion
(line 112) and a failed backend upsert (line 113-120). -/
inductive SetError where
  | invalidKey
  | persistenceFailure
deriving DecidableEq

/-- `set_setting` (lines 111-121) with the backend upsert outcome made
explicit: the key is validated first; the cache is written only after the
upsert succeeded, so a failed upsert leaves the cache unchanged and the
error propagates. Returns the (possibly unchanged) cache and the error. -/
def set_setting (cfg : GroupConfig) (gid : Int) (key : String)
    (v : SettingVal) (backendOk : Bool) : GroupConfig × Option SetError :=
  if key ∈ GROUP_SETTING_KEYS then
    if backendOk then (((gid, key), v) :: cfg, none)
    else (cfg, some SetError.persistenceFailure)
  else (cfg, some SetError.invalidKey)

/-- The in-memory `delete_events` throttle map (line 159), keyed by
`(chat_id, user_id)` with the last flagged-deletion time in seconds. -/
abbrev ThrottleMap := List ((Int × Int) × Int)

/-- Throttle-map lookup (dict access on `delete_events`). -/
def tmap_lookup : ThrottleMap → (Int × Int) → Option Int
  | [], _ => none
  | (k, v) :: rest, key => if k = key then some v else tmap_lookup rest key

/-- The throttle check inlined at lines 426-429:
`event_key not in delete_events or delete_events[event_key] < utcnow() - timedelta(hours=1)`.
Times are in seconds. -/
def should_notify (m : ThrottleMap) (key : Int × Int) (now : Int) : Bool :=
  match tmap_lookup m key with
  | none => true
  | some t => t < now - 3600

/-- The unconditional record update at line 432:
`delete_events[event_key] = datetime.utcnow()`. -/
def record_notified (m : ThrottleMap) (key : Int × Int) (now : Int) :
    ThrottleMap :=
  (key, now) :: m

/-- `USERNAME_EXCEPTIONS` (line 21): usernames never filtered. -/
def USERNAME_EXCEPTIONS : List String :=
  ["blockchainschool", "preico", "tnam0rken_chanel"]

/-- Modelled from the spec: the static link-domain exception list is read
from the files `nongraphenelist` and `whitelist` (lines 22-27), which are
absent from the repository snapshot; the public notice at line 430 names
the excepted websites steemit.com, golos.io and whaleshares.io, so the
list is modelled as those hosts. -/
def LINKS_EXCEPTIONS : List String :=
  ["steemit.com", "golos.io", "whaleshares.io"]

/-- A message entity (`msg.entities` element): a typed span over the text,
with `type` one of url, text_link, email, mention (or others, ignored). -/
structure Entity where
  type : String
  offset : Nat
  length : Nat
deriving DecidableEq

/-- The MessageView the handler consumes: chat and sender identity, text,
optional caption, entity spans and forward-origin presence flags. -/
structure Msg where
  chat_id : Int
  message_id : Int
  from_user_id : Int
  text : String
  caption : Option String
  entities : List Entity
  forward_from : Bool
  forward_from_chat : Bool
deriving DecidableEq

/-- Python slice `msg.text[ent.offset:ent.offset + ent.length]`
(code-point based). -/
def entity_span (text : String) (e : Entity) : String :=
  String.mk ((text.toList.drop e.offset).take e.length)

/-- Python `str.lstrip('@')`: drop every leading `@`. -/
def lstrip_at (s : String) : String :=
  String.mk (s.toList.dropWhile (fun c => c == '@'))

/-- Python `str.lower()` on ASCII input, character by character. -/
def str_lower (s : String) : String :=
  String.mk (s.toList.map Char.toLower)

/-- Whether the first list starts with the second. -/
def chars_start : List Char → List Char → Bool
  | _, [] => true
  | [], _ :: _ => false
  | c :: cs, p :: ps => c == p && chars_start cs ps

/-- Python `str.startswith(p)`. -/
def str_starts (s p : String) : Bool :=
  chars_start s.toList p.toList

/-- Whether a character list forms a valid URL scheme for `urlparse`:
a letter followed by letters, digits, `+`, `-` or `.`. -/
def valid_scheme : List Char → Bool
  | [] => false
  | c :: rest => c.isAlpha && rest.all (fun d => d.isAlphanum || d == '+' || d == '-' || d == '.')

/-- Strip a leading `scheme:` from a URL's characters when present,
as `urlparse` does before looking for the `//` netloc marker. -/
def split_scheme (s : List Char) : List Char :=
  let pre := s.takeWhile (fun c => c != ':')
  if pre.length < s.length && valid_scheme pre then s.drop (pre.length + 1) else s

/-- `urlparse(url).netloc`: the characters after a leading `//`
(scheme stripped) up to the first `/`, `?` or `#`; empty when the URL has
no `//` authority part. -/
def url_netloc (url : String) : String :=
  let s := split_scheme url.toList
  if s.take 2 = ['/', '/'] then
    String.mk ((s.drop 2).takeWhile (fun c => c != '/' && c != '?' && c != '#'))
  else ""

/-- Lines 349-352: extract the entity's span, prefix `//` unless it
already starts with `//` or `http`, and take the lowercased netloc. -/
def entity_link_host (text : String) (e : Entity) : String :=
  let url := entity_span text e
  let url := if str_starts url "//" || str_starts url "http" then url else "//" ++ url
  str_lower (url_netloc url)

/-- A username-type resolver: the outcome of `process_user_type`'s
cache-or-network lookup, `none` meaning no type was obtained. -/
abbrev Resolver := String → Option String

/-- `process_user_type` (lines 132-153) as seen by the classifier: the
username is lowercased before lookup; the cache/network mechanics are
abstracted into the resolver function. -/
def process_user_type (r : Resolver) (username : String) : Option String :=
  r (str_lower username)

/-- Python `\w` on ASCII input: letters, digits and underscore. -/
def is_word_char (c : Char) : Bool :=
  c.isAlphanum || c == '_'

/-- Python `\s`: space, tab, newline, carriage return, vertical tab,
form feed. -/
def is_space_char (c : Char) : Bool :=
  c == ' ' || c == '\t' || c == '\n' || c == '\r' || c == '\x0b' || c == '\x0c'

/-- Match attempt for the free-text pattern right after its `@`: one
whitespace character, a nonempty maximal run of letters, then end of
input or a non-word character; returns the letter run. -/
def mention_after_at : List Char → Option String
  | [] => none
  | w :: rest =>
    if is_space_char w then
      let run := rest.takeWhile Char.isAlpha
      if run.isEmpty then none
      else
        match rest.drop run.length with
        | [] => some (String.mk run)
        | c :: _ => if is_word_char c then none else some (String.mk run)
    else none

/-- Left-to-right scan for the regex of line 375; `prevOk` records whether
the position is the start of input or preceded by a non-word character
(the `(?:^|\W)` boundary). -/
def scan_mention : Bool → List Char → Option String
  | _, [] => none
  | prevOk, c :: rest =>
    match (if prevOk && c == '@' then mention_after_at rest else none) with
    | some u => some u
    | none => scan_mention (!is_word_char c) rest

/-- `re.search(r'(?:^|\W)\@\s([a-zA-Z]+)(?:$|\W)', msg.text)` (line 375):
the captured username of the leftmost free-text `@ username` match. -/
def find_free_mention (text : String) : Option String :=
  scan_mention true text.toList

/-- The entity loop of lines 347-373: walk the entity spans in order and
return the first matching rule's reason (`break`), skipping excepted
hosts and usernames and non-matching entities (`continue`). -/
def scan_entities (cfg : GroupConfig) (r : Resolver) (gid : Int)
    (text : String) : List Entity → Option String
  | [] => none
  | e :: rest =>
    if (e.type = "url" ∨ e.type = "text_link")
        ∧ (get_setting cfg gid "links" (SettingVal.b true)).truthy = true then
      if entity_link_host text e ∈ LINKS_EXCEPTIONS then
        scan_entities cfg r gid text rest
      else some "external link"
    else if e.type = "email"
        ∧ (get_setting cfg gid "emails" (SettingVal.b true)).truthy = true then
      some "email"
    else if e.type = "mention" then
      if str_lower (lstrip_at (entity_span text e)) ∈ USERNAME_EXCEPTIONS then
        scan_entities cfg r gid text rest
      else if process_user_type r (lstrip_at (entity_span text e)) = some "group"
          ∧ (get_setting cfg gid "groups" (SettingVal.b true)).truthy = true then
        some "@-link to group"
      else if process_user_type r (lstrip_at (entity_span text e)) = some "channel"
          ∧ (get_setting cfg gid "channels" (SettingVal.b true)).truthy = true then
        some "@-link to channel"
      else scan_entities cfg r gid text rest
    else scan_entities cfg r gid text rest

/-- Lines 375-385: the free-text `@ username` fallback; the matched
username is exempted against the exception list, otherwise resolved and
checked against the `groups` / `channels` settings. -/
def free_mention_reason (cfg : GroupConfig) (r : Resolver) (gid : Int)
    (text : String) : Option String :=
  match find_free_mention text with
  | none => none
  | some username =>
    if str_lower username ∈ USERNAME_EXCEPTIONS then none
    else if process_user_type r username = some "group"
        ∧ (get_setting cfg gid "groups" (SettingVal.b true)).truthy = true then
      some "@-link to group"
    else if process_user_type r username = some "channel"
        ∧ (get_setting cfg gid "channels" (SettingVal.b true)).truthy = true then
      some "@-link to channel"
    else none

/-- Lines 374-388, the block run when no entity rule matched: the
free-text mention check followed by the forwarded check. The forwarded
check at line 386 is not gated on the mention outcome, so when the message
is a forward and `forwarded` is enabled its reason overwrites a free-text
mention match. -/
def fallback_reason (cfg : GroupConfig) (r : Resolver) (gid : Int)
    (msg : Msg) : Option String :=
  if (msg.forward_from = true ∨ msg.forward_from_chat = true)
      ∧ (get_setting cfg gid "forwarded" (SettingVal.b true)).truthy = true then
    some "forwarded"
  else free_mention_reason cfg r gid msg.text

/-- Lines 389-401: walk the usernames found in the caption, strip the
leading `@`, resolve, and flag group/channel links (first match wins). -/
def caption_mention_reason (cfg : GroupConfig) (r : Resolver) (gid : Int) :
    List String → Option String
  | [] => none
  | u :: rest =>
    if process_user_type r (lstrip_at u) = some "group"
        ∧ (get_setting cfg gid "groups" (SettingVal.b true)).truthy = true then
      some "caption @-link to group"
    else if process_user_type r (lstrip_at u) = some "channel"
        ∧ (get_setting cfg gid "channels" (SettingVal.b true)).truthy = true then
      some "caption @-link to channel"
    else caption_mention_reason cfg r gid rest

/-- Python `msg.caption or ''`. -/
def msg_caption (msg : Msg) : String :=
  msg.caption.getD ""

/-- The classifier of `handle_any_msg` (lines 346-405): the entity loop,
then the free-text-mention/forwarded block, then the caption username
scan, then the caption bare-link check. `fulinks` and `felinks` stand for
`find_username_links` and `find_external_links` from the absent `util`
module (modelled from the spec: they scan a text for username-mention
patterns and for bare external links respectively). Returns the deletion
reason, or `none` to keep the message. -/
def classify (cfg : GroupConfig) (r : Resolver)
    (fulinks felinks : String → List String) (msg : Msg) : Option String :=
  match scan_entities cfg r msg.chat_id msg.text msg.entities with
  | some reason => some reason
  | none =>
    match fallback_reason cfg r msg.chat_id msg with
    | some reason => some reason
    | none =>
      match caption_mention_reason cfg r msg.chat_id (fulinks (msg_caption msg)) with
      | some reason => some reason
      | none =>
        if (felinks (msg_caption msg)).isEmpty = false
            ∧ (get_setting cfg msg.chat_id "links" (SettingVal.b true)).truthy = true then
          some "caption external link"
        else none

/-- A side effect issued by `handle_any_msg` through its collaborators:
the event append (line 411), the public notice (line 431), and the three
audit formats (lines 456-476), then the deletion (line 483). The audit
sends carry the log channel and the reason they embed; the serialized
payloads of the `json` and `simple` sends are abstracted. -/
inductive Effect where
  | saveEvent (reason : String)
  | sendMessage (chat : Int) (content : String)
  | forwardMessage (dest src mid : Int)
  | logJson (chat : Int) (reason : String)
  | logSimple (chat : Int) (reason : String)
  | deleteMessage (chat mid : Int)
deriving DecidableEq

/-- Failure injection for the handler's fallible collaborator calls: a
field is true when the corresponding call raises an exception. -/
structure Oracle where
  saveEventFails : Bool
  noticeFails : Bool
  forwardFails : Bool
  jsonFails : Bool
  simpleFails : Bool
deriving DecidableEq

/-- The oracle on which every collaborator call succeeds. -/
def Oracle.allOk : Oracle :=
  ⟨false, false, false, false, false⟩

/-- The public notice text of line 430: the template literal is sent as
is, its two `%s` placeholders are never substituted. -/
def notice_text : String :=
  "Removed msg from %s. Reason: %s\nMessages containing links to these websites will not be deleted: steemit.com, golos.io and whaleshares.io"

/-- `get_setting(group_config, chid, 'logformat', default=['simple'])`
(line 439). Stored values other than a string list are unreachable via
`/setlogformat` and yield no sends. -/
def log_formats (cfg : GroupConfig) (chid : Int) : List String :=
  match get_setting cfg chid "logformat" (SettingVal.strs ["simple"]) with
  | SettingVal.strs l => l
  | _ => []

/-- Lines 434-437: the set of audit channels, at most the configured
`log_channel_id` when it is set (truthy). -/
def channel_ids (cfg : GroupConfig) (gid : Int) : List Int :=
  match get_setting cfg gid "log_channel_id" SettingVal.nil with
  | SettingVal.i c => if c != 0 then [c] else []
  | _ => []

/-- Lines 455-481, the per-channel dispatch: the `forward`, `json` and
`simple` sends are attempted in that order inside one `try` block; the
first raising call aborts the remaining formats of this channel, and the
exception is caught (logged) so processing continues after the loop. -/
def dispatch_channel (cfg : GroupConfig) (orc : Oracle) (msg : Msg)
    (reason : String) (chid : Int) : List Effect :=
  let formats := log_formats cfg chid
  let fwd : List Effect :=
    if "forward" ∈ formats then [Effect.forwardMessage chid msg.chat_id msg.message_id] else []
  let js : List Effect :=
    if "json" ∈ formats then [Effect.logJson chid reason] else []
  let sp : List Effect :=
    if "simple" ∈ formats then [Effect.logSimple chid reason] else []
  if "forward" ∈ formats ∧ orc.forwardFails = true then fwd
  else if "json" ∈ formats ∧ orc.jsonFails = true then fwd ++ js
  else fwd ++ js ++ sp

/-- `handle_any_msg` (lines 345-483) for one message: classify; exempt
administrators; otherwise run the `try` body — event append, throttled
public notice, throttle update, audit dispatch — under a `finally` that
always issues the deletion. An exception from the event append or the
notice send aborts the rest of the body (the throttle map is then left
unchanged) but the `finally` deletion is still issued. Returns the trace
of issued collaborator calls and the resulting throttle map. -/
def handle_any_msg (cfg : GroupConfig) (r : Resolver)
    (fulinks felinks : String → List String) (throttle : ThrottleMap)
    (now : Int) (isAdmin : Bool) (orc : Oracle) (msg : Msg) :
    List Effect × ThrottleMap :=
  match classify cfg r fulinks felinks msg with
  | none => ([], throttle)
  | some reason =>
    if isAdmin then ([], throttle)
    else if orc.saveEventFails then
      ([Effect.saveEvent reason, Effect.deleteMessage msg.chat_id msg.message_id],
       throttle)
    else
      let doNotify : Bool :=
        (get_setting cfg msg.chat_id "publog" (SettingVal.b true)).truthy
          && should_notify throttle (msg.chat_id, msg.from_user_id) now
      if doNotify ∧ orc.noticeFails = true then
        ([Effect.saveEvent reason, Effect.sendMessage msg.chat_id notice_text,
          Effect.deleteMessage msg.chat_id msg.message_id], throttle)
      else
        ((if doNotify then
            [Effect.saveEvent reason, Effect.sendMessage msg.chat_id notice_text]
          else [Effect.saveEvent reason])
          ++ (channel_ids cfg msg.chat_id).flatMap (dispatch_channel cfg orc msg reason)
          ++ [Effect.deleteMessage msg.chat_id msg.message_id],
         record_notified throttle (msg.chat_id, msg.from_user_id) now)

/-- A resolver mapping the username `spam` to a Telegram group. -/
def demo_resolver : Resolver :=
  fun u => if u = "spam" then some "group" else none

/-- A forwarded message whose text also carries a free-text `@ spam`
mention, in a chat with no stored settings (all rule toggles default on). -/
def demo_forward_mention_msg : Msg :=
  { chat_id := 1, message_id := 10, from_user_id := 7, text := "@ spam",
    caption := none, entities := [], forward_from := true,
    forward_from_chat := false }

/-- C1 counterexample: the recorded time is 0 and the next flagged
deletion happens at exactly 3600 seconds; the throttle check returns
false, while the claim says it returns true at or after exactly 3600
seconds. The strict `<` of line 428 suppresses the notice at the exact
one-hour boundary. -/
theorem throttle_exact_hour_boundary :
    should_notify (record_notified [] (1, 2) 0) (1, 2) 3600 = false := by
  decide

/-- C1 amended: the check returns true on the first flagged deletion for
a pair, and after a recorded deletion at time `t0` it returns true again
only strictly after 3600 seconds (false at any elapsed time of at most
3600 seconds, exactly 3600 included). -/
theorem throttle_window_contract (m : ThrottleMap) (k : Int × Int)
    (t0 now : Int) :
    (tmap_lookup m k = none → should_notify m k now = true) ∧
    (should_notify (record_notified m k t0) k now = true ↔ 3600 < now - t0) := by
  constructor
  · intro h
    simp [should_notify, h]
  · simp [should_notify, record_notified, tmap_lookup]
    omega

/-- C1 witness: first call notifies; a call 3601 seconds after the
recorded time notifies again. -/
theorem throttle_window_contract_witness :
    should_notify [] (3, 4) 5 = true ∧
    should_notify (record_notified [] (3, 4) 0) (3, 4) 3601 = true :=
  ⟨(throttle_window_contract [] (3, 4) 0 5).1 rfl,
   (throttle_window_contract [] (3, 4) 0 3601).2.mpr (by decide)⟩

/-- C8: `set_setting` rejects a key outside the closed enum with
`InvalidKey` and leaves the cache unchanged; for a valid key, a failed
backend upsert propagates `PersistenceFailure` with the cache unchanged,
and a successful upsert installs the new value in the cache. -/
theorem set_setting_contract (cfg : GroupConfig) (gid : Int) (key : String)
    (v : SettingVal) :
    (key ∉ GROUP_SETTING_KEYS →
      ∀ ok, set_setting cfg gid key v ok = (cfg, some SetError.invalidKey)) ∧
    (key ∈ GROUP_SETTING_KEYS →
      set_setting cfg gid key v false = (cfg, some SetError.persistenceFailure) ∧
      (set_setting cfg gid key v true).2 = none ∧
      cfg_lookup (set_setting cfg gid key v true).1 (gid, key) = some v) := by
  constructor
  · intro h ok
    simp [set_setting, h]
  · intro h
    refine ⟨by simp [set_setting, h], by simp [set_setting, h], ?_⟩
    simp [set_setting, h, cfg_lookup]

/-- C8 witness: an unknown key fails with InvalidKey leaving the empty
cache unchanged; for the valid key `links`, a failed upsert propagates
PersistenceFailure with the cache unchanged, and a successful upsert makes
the cache hold the new value. -/
theorem set_setting_contract_witness :
    set_setting [] 1 "zzz" (SettingVal.b true) true = ([], some SetError.invalidKey) ∧
    set_setting [] 1 "links" (SettingVal.b false) false = ([], some SetError.persistenceFailure) ∧
    cfg_lookup (set_setting [] 1 "links" (SettingVal.b false) true).1 (1, "links")
      = some (SettingVal.b false) :=
  ⟨(set_setting_contract [] 1 "zzz" (SettingVal.b true)).1 (by decide) true,
   ((set_setting_contract [] 1 "links" (SettingVal.b false)).2 (by decide)).1,
   ((set_setting_contract [] 1 "links" (SettingVal.b false)).2 (by decide)).2.2⟩

/-- C9: when the classifier flags a message but the sender is an
administrator, the handler returns at once: the trace of issued side
effects is empty (no deletion, no event append, no notice, no audit
dispatch) and the throttle map is unchanged. -/
theorem admin_exempt_no_side_effects (cfg : GroupConfig) (r : Resolver)
    (fulinks felinks : String → List String) (throttle : ThrottleMap)
    (now : Int) (orc : Oracle) (msg : Msg) (reason : String)
    (hc : classify cfg r fulinks felinks msg = some reason) :
    handle_any_msg cfg r fulinks felinks throttle now true orc msg = ([], throttle) := by
  simp [handle_any_msg, hc]

/-- C9 witness: a flaggable forwarded message from an administrator
produces no side effect at all. -/
theorem admin_exempt_no_side_effects_witness :
    handle_any_msg [] demo_resolver (fun _ => []) (fun _ => []) [] 0 true
      Oracle.allOk demo_forward_mention_msg = ([], []) :=
  admin_exempt_no_side_effects [] demo_resolver (fun _ => []) (fun _ => [])
    [] 0 Oracle.allOk demo_forward_mention_msg "forwarded" (by decide)

/-- C2 counterexample: a message whose free-text `@ spam` mention matches
step 4 with resolved type group and `groups` enabled, which is also a
forward with `forwarded` enabled. The claim says the result keeps the
step-4 reason, but the forwarded check at line 386 is not gated on the
mention outcome and overwrites the reason with "forwarded". -/
theorem forwarded_overrides_free_mention_reason :
    free_mention_reason [] demo_resolver 1 "@ spam" = some "@-link to group" ∧
    classify [] demo_resolver (fun _ => []) (fun _ => [])
      demo_forward_mention_msg = some "forwarded" := by
  decide

/-- C2 amended: the entity rules, the caption rules and the final caption
link rule are first-match-wins in the stated order, but the forwarded rule
is evaluated whenever no entity rule matched and, when the message is a
forward with `forwarded` enabled, its reason overrides any free-text
mention match of step 4 (the delete decision itself is unchanged). -/
theorem forwarded_check_not_gated_on_mention (cfg : GroupConfig)
    (r : Resolver) (fulinks felinks : String → List String) (msg : Msg)
    (hse : scan_entities cfg r msg.chat_id msg.text msg.entities = none)
    (hfwd : msg.forward_from = true ∨ msg.forward_from_chat = true)
    (hset : (get_setting cfg msg.chat_id "forwarded" (SettingVal.b true)).truthy = true) :
    classify cfg r fulinks felinks msg = some "forwarded" := by
  unfold classify
  rw [hse]
  unfold fallback_reason
  rw [if_pos ⟨hfwd, hset⟩]

/-- C2 witness: the amended override applied to the concrete forwarded
message with a matching free-text group mention. -/
theorem forwarded_check_not_gated_on_mention_witness :
    classify [] demo_resolver (fun _ => []) (fun _ => [])
      demo_forward_mention_msg = some "forwarded" :=
  forwarded_check_not_gated_on_mention [] demo_resolver (fun _ => [])
    (fun _ => []) demo_forward_mention_msg rfl (Or.inl rfl) rfl

/-- The oracle on which only the event append raises. -/
def event_fail_oracle : Oracle :=
  ⟨true, false, false, false, false⟩

/-- C3 counterexample: when the DeletionEvent append raises, the `finally`
of lines 410-483 still issues the deletion, so the original message is
deleted with no audit record — the claim says the delete is never issued
when the event write has failed. -/
theorem delete_issued_despite_event_write_failure :
    event_fail_oracle.saveEventFails = true ∧
    (handle_any_msg [] demo_resolver (fun _ => []) (fun _ => []) [] 0 false
        event_fail_oracle demo_forward_mention_msg).1
      = [Effect.saveEvent "forwarded", Effect.deleteMessage 1 10] := by
  decide

/-- C3 amended: for every flagged message from a non-administrator, the
DeletionEvent append is the first side effect issued, before the delete,
and the delete is the last; but the delete is issued unconditionally — a
failure of the event append does not prevent it, so a failed append leaves
a deleted message with no audit record. -/
theorem event_append_first_delete_last (cfg : GroupConfig) (r : Resolver)
    (fulinks felinks : String → List String) (throttle : ThrottleMap)
    (now : Int) (orc : Oracle) (msg : Msg) (reason : String)
    (hc : classify cfg r fulinks felinks msg = some reason) :
    ∃ mid, (handle_any_msg cfg r fulinks felinks throttle now false orc msg).1
      = Effect.saveEvent reason ::
          (mid ++ [Effect.deleteMessage msg.chat_id msg.message_id]) := by
  unfold handle_any_msg
  rw [hc]
  by_cases h1 : orc.saveEventFails
  · exact ⟨[], by simp [h1]⟩
  · by_cases h2 :
      ((get_setting cfg msg.chat_id "publog" (SettingVal.b true)).truthy
        && should_notify throttle (msg.chat_id, msg.from_user_id) now) = true
        ∧ orc.noticeFails = true
    · exact ⟨[Effect.sendMessage msg.chat_id notice_text], by simp [h1, h2]⟩
    · by_cases h3 :
        ((get_setting cfg msg.chat_id "publog" (SettingVal.b true)).truthy
          && should_notify throttle (msg.chat_id, msg.from_user_id) now) = true
      · refine ⟨Effect.sendMessage msg.chat_id notice_text ::
          (channel_ids cfg msg.chat_id).flatMap
            (dispatch_channel cfg orc msg reason), ?_⟩
        have h4 : ¬orc.noticeFails = true := fun hn => h2 ⟨h3, hn⟩
        simp [h1, h3, h4]
      · refine ⟨(channel_ids cfg msg.chat_id).flatMap
          (dispatch_channel cfg orc msg reason), ?_⟩
        simp [h1, h2, h3]

/-- C3 witness: the ordering applied to a concrete flagged message with
all collaborator calls succeeding. -/
theorem event_append_first_delete_last_witness :
    ∃ mid, (handle_any_msg [] demo_resolver (fun _ => []) (fun _ => [])
        [] 0 false Oracle.allOk demo_forward_mention_msg).1
      = Effect.saveEvent "forwarded" :: (mid ++ [Effect.deleteMessage 1 10]) :=
  event_append_first_delete_last [] demo_resolver (fun _ => []) (fun _ => [])
    [] 0 Oracle.allOk demo_forward_mention_msg "forwarded" (by decide)

/-- A chat 1 logging to channel 99 with all three audit formats. -/
def audit_cfg : GroupConfig :=
  [((1, "log_channel_id"), SettingVal.i 99),
   ((99, "logformat"), SettingVal.strs ["forward", "json", "simple"])]

/-- The oracle on which only the audit `forward` send raises. -/
def forward_fail_oracle : Oracle :=
  ⟨false, false, true, false, false⟩

/-- The handler trace for the flaggable forwarded message under
`audit_cfg` when the audit forward send fails. -/
def forward_fail_trace : List Effect :=
  (handle_any_msg audit_cfg demo_resolver (fun _ => []) (fun _ => []) [] 0
    false forward_fail_oracle demo_forward_mention_msg).1

/-- C4 counterexample: channel 99 requests the formats forward, json and
simple; the forward send fails, and the json and simple sends of the same
channel are not issued, because one `try` block (lines 455-481) wraps all
three formats. The deletion is still issued. The claim says a failure of
one format's send does not prevent the remaining formats of the same
channel. -/
theorem format_failure_aborts_remaining_formats :
    "json" ∈ log_formats audit_cfg 99 ∧
    "simple" ∈ log_formats audit_cfg 99 ∧
    Effect.forwardMessage 99 1 10 ∈ forward_fail_trace ∧
    Effect.logJson 99 "forwarded" ∉ forward_fail_trace ∧
    Effect.logSimple 99 "forwarded" ∉ forward_fail_trace ∧
    Effect.deleteMessage 1 10 ∈ forward_fail_trace := by
  decide

/-- C4 amended: an audit-send failure is caught per channel, not per
format: the deletion of the original message is always issued for a
flagged non-administrator message, whatever the oracle; but within a
channel the first failing format send aborts the remaining formats of
that channel (here: a failing forward send leaves the channel's trace at
just the forward attempt). -/
theorem dispatch_failure_confined_to_channel (cfg : GroupConfig)
    (r : Resolver) (fulinks felinks : String → List String)
    (throttle : ThrottleMap) (now : Int) (orc : Oracle) (msg : Msg)
    (reason : String) (hc : classify cfg r fulinks felinks msg = some reason) :
    Effect.deleteMessage msg.chat_id msg.message_id
      ∈ (handle_any_msg cfg r fulinks felinks throttle now false orc msg).1 ∧
    ∀ chid, "forward" ∈ log_formats cfg chid → orc.forwardFails = true →
      dispatch_channel cfg orc msg reason chid
        = [Effect.forwardMessage chid msg.chat_id msg.message_id] := by
  constructor
  · unfold handle_any_msg
    rw [hc]
    by_cases h1 : orc.saveEventFails
    · simp [h1]
    · by_cases h2 :
        ((get_setting cfg msg.chat_id "publog" (SettingVal.b true)).truthy
          && should_notify throttle (msg.chat_id, msg.from_user_id) now) = true
          ∧ orc.noticeFails = true
      · simp [h1, h2]
      · simp only [h1, if_neg h2, Bool.not_eq_true, if_false]
        simp
  · intro chid hf hforc
    unfold dispatch_channel
    rw [if_pos ⟨hf, hforc⟩, if_pos hf]

/-- C4 witness: the amended statement applied to the concrete run where
channel 99's forward send fails. -/
theorem dispatch_failure_confined_to_channel_witness :
    Effect.deleteMessage 1 10 ∈ forward_fail_trace ∧
    dispatch_channel audit_cfg forward_fail_oracle demo_forward_mention_msg
      "forwarded" 99 = [Effect.forwardMessage 99 1 10] :=
  have h := dispatch_failure_confined_to_channel audit_cfg demo_resolver
    (fun _ => []) (fun _ => []) [] 0 forward_fail_oracle
    demo_forward_mention_msg "forwarded" (by decide)
  ⟨h.1, h.2 99 (by decide) rfl⟩

theorem free_mention_reason_cases (cfg : GroupConfig) (r : Resolver)
    (gid : Int) (text : String) (s : String)
    (h : free_mention_reason cfg r gid text = some s) :
    s = "@-link to group" ∨ s = "@-link to channel" := by
  unfold free_mention_reason at h
  rcases hm : find_free_mention text with _ | u <;> simp only [hm] at h
  · exact absurd h (by simp)
  · split at h
    · exact absurd h (by simp)
    · split at h
      · exact Or.inl (Option.some.inj h).symm
      · split at h
        · exact Or.inr (Option.some.inj h).symm
        · exact absurd h (by simp)

theorem fallback_reason_cases (cfg : GroupConfig) (r : Resolver) (gid : Int)
    (msg : Msg) (s : String) (h : fallback_reason cfg r gid msg = some s) :
    s = "forwarded" ∨ s = "@-link to group" ∨ s = "@-link to channel" := by
  unfold fallback_reason at h
  split at h
  · exact Or.inl (Option.some.inj h).symm
  · exact Or.inr (free_mention_reason_cases cfg r gid msg.text s h)

theorem caption_mention_reason_cases (cfg : GroupConfig) (r : Resolver)
    (gid : Int) (s : String) :
    ∀ us, caption_mention_reason cfg r gid us = some s →
      s = "caption @-link to group" ∨ s = "caption @-link to channel" := by
  intro us
  induction us with
  | nil => intro h; exact absurd h (by simp [caption_mention_reason])
  | cons u rest ih =>
    intro h
    unfold caption_mention_reason at h
    split at h
    · exact Or.inl (Option.some.inj h).symm
    · split at h
      · exact Or.inr (Option.some.inj h).symm
      · exact ih h

theorem scan_entities_links_off (cfg : GroupConfig) (r : Resolver)
    (gid : Int) (text : String)
    (hts : (get_setting cfg gid "links" (SettingVal.b true)).truthy = false) :
    ∀ ents, scan_entities cfg r gid text ents ≠ some "external link" := by
  intro ents
  induction ents with
  | nil => simp [scan_entities]
  | cons e rest ih =>
    unfold scan_entities
    split
    · next hcond => rw [hts] at hcond; exact absurd hcond.2 (by simp)
    · split
      · simp
      · split
        · split
          · exact ih
          · split
            · simp
            · split
              · simp
              · exact ih
        · exact ih

theorem scan_entities_excepted_hosts (cfg : GroupConfig) (r : Resolver)
    (gid : Int) (text : String) :
    ∀ ents, (∀ e ∈ ents, (e.type = "url" ∨ e.type = "text_link") →
        entity_link_host text e ∈ LINKS_EXCEPTIONS) →
      scan_entities cfg r gid text ents ≠ some "external link" := by
  intro ents
  induction ents with
  | nil => intro _; simp [scan_entities]
  | cons e rest ih =>
    intro hh
    have htail : ∀ e ∈ rest, (e.type = "url" ∨ e.type = "text_link") →
        entity_link_host text e ∈ LINKS_EXCEPTIONS :=
      fun x hx => hh x (List.mem_cons_of_mem e hx)
    unfold scan_entities
    split
    · next hcond =>
      rw [if_pos (hh e (List.mem_cons_self e rest) hcond.1)]
      exact ih htail
    · split
      · simp
      · split
        · split
          · exact ih htail
          · split
            · simp
            · split
              · simp
              · exact ih htail
        · exact ih htail

theorem scan_entities_cases (cfg : GroupConfig) (r : Resolver) (gid : Int)
    (text : String) (s : String) :
    ∀ ents, scan_entities cfg r gid text ents = some s →
      s = "external link" ∨ s = "email" ∨ s = "@-link to group" ∨
        s = "@-link to channel" := by
  intro ents
  induction ents with
  | nil => intro h; exact absurd h (by simp [scan_entities])
  | cons e rest ih =>
    intro h
    unfold scan_entities at h
    split at h
    · split at h
      · exact ih h
      · exact Or.inl (Option.some.inj h).symm
    · split at h
      · exact Or.inr (Or.inl (Option.some.inj h).symm)
      · split at h
        · split at h
          · exact ih h
          · split at h
            · exact Or.inr (Or.inr (Or.inl (Option.some.inj h).symm))
            · split at h
              · exact Or.inr (Or.inr (Or.inr (Option.some.inj h).symm))
              · exact ih h
        · exact ih h

/-- A chat 1 whose `links` setting is stored as false. -/
def links_off_cfg : GroupConfig :=
  [((1, "links"), SettingVal.b false)]

/-- A message in chat 1 carrying a url entity over its whole text and a
caption holding a bare link. -/
def demo_link_msg : Msg :=
  { chat_id := 1, message_id := 12, from_user_id := 7,
    text := "http://evil.example/x",
    caption := some "http://also.evil.example/y",
    entities := [{ type := "url", offset := 0, length := 21 }],
    forward_from := false, forward_from_chat := false }

/-- C5: when the chat's `links` setting is false, the classifier never
returns the reason "external link" (entity rule, line 348 gate) nor
"caption external link" (caption rule, line 403 gate), for every message,
resolver and caption scanner. -/
theorem links_disabled_no_link_reasons (cfg : GroupConfig) (r : Resolver)
    (fulinks felinks : String → List String) (msg : Msg)
    (h : cfg_lookup cfg (msg.chat_id, "links") = some (SettingVal.b false)) :
    classify cfg r fulinks felinks msg ≠ some "external link" ∧
    classify cfg r fulinks felinks msg ≠ some "caption external link" := by
  have hts : (get_setting cfg msg.chat_id "links" (SettingVal.b true)).truthy
      = false := by
    simp [get_setting, h, SettingVal.truthy]
  constructor
  · intro hc
    unfold classify at hc
    rcases h1 : scan_entities cfg r msg.chat_id msg.text msg.entities
      with _ | s1 <;> simp only [h1] at hc
    · rcases h2 : fallback_reason cfg r msg.chat_id msg with _ | s2 <;>
        simp only [h2] at hc
      · rcases h3 : caption_mention_reason cfg r msg.chat_id
            (fulinks (msg_caption msg)) with _ | s3 <;> simp only [h3] at hc
        · simp [hts] at hc
        · have hs3 : s3 = "external link" := Option.some.inj hc
          rcases caption_mention_reason_cases cfg r msg.chat_id s3 _ h3
            with h' | h' <;> rw [h'] at hs3 <;> exact absurd hs3 (by decide)
      · have hs2 : s2 = "external link" := Option.some.inj hc
        rcases fallback_reason_cases cfg r msg.chat_id msg s2 h2
          with h' | h' | h' <;> rw [h'] at hs2 <;> exact absurd hs2 (by decide)
    · have hs1 : s1 = "external link" := Option.some.inj hc
      rw [hs1] at h1
      exact scan_entities_links_off cfg r msg.chat_id msg.text hts
        msg.entities h1
  · intro hc
    unfold classify at hc
    rcases h1 : scan_entities cfg r msg.chat_id msg.text msg.entities
      with _ | s1 <;> simp only [h1] at hc
    · rcases h2 : fallback_reason cfg r msg.chat_id msg with _ | s2 <;>
        simp only [h2] at hc
      · rcases h3 : caption_mention_reason cfg r msg.chat_id
            (fulinks (msg_caption msg)) with _ | s3 <;> simp only [h3] at hc
        · simp [hts] at hc
        · have hs3 : s3 = "caption external link" := Option.some.inj hc
          rcases caption_mention_reason_cases cfg r msg.chat_id s3 _ h3
            with h' | h' <;> rw [h'] at hs3 <;> exact absurd hs3 (by decide)
      · have hs2 : s2 = "caption external link" := Option.some.inj hc
        rcases fallback_reason_cases cfg r msg.chat_id msg s2 h2
          with h' | h' | h' <;> rw [h'] at hs2 <;> exact absurd hs2 (by decide)
    · have hs1 : s1 = "caption external link" := Option.some.inj hc
      rcases scan_entities_cases cfg r msg.chat_id msg.text s1 msg.entities h1
        with h' | h' | h' | h' <;> rw [h'] at hs1 <;> exact absurd hs1 (by decide)

/-- C5 witness: with `links` false in chat 1, a message with a url entity
and a caption bare link gets neither link reason. -/
theorem links_disabled_no_link_reasons_witness :
    classify links_off_cfg (fun _ => none) (fun _ => [])
      (fun _ => ["http://also.evil.example/y"]) demo_link_msg
      ≠ some "external link" ∧
    classify links_off_cfg (fun _ => none) (fun _ => [])
      (fun _ => ["http://also.evil.example/y"]) demo_link_msg
      ≠ some "caption external link" :=
  links_disabled_no_link_reasons links_off_cfg (fun _ => none) (fun _ => [])
    (fun _ => ["http://also.evil.example/y"]) demo_link_msg (by decide)

/-- A media message whose caption is exactly a bare link to the excepted
host steemit.com, with no text entities. -/
def steemit_caption_msg : Msg :=
  { chat_id := 1, message_id := 13, from_user_id := 7, text := "",
    caption := some "http://steemit.com/x", entities := [],
    forward_from := false, forward_from_chat := false }

/-- A caption scanner returning the single bare link of the steemit
caption (modelled from the spec: `find_external_links` scans a text for
bare external links, with no exception filtering mentioned). -/
def steemit_felinks : String → List String :=
  fun c => if c = "http://steemit.com/x" then ["http://steemit.com/x"] else []

/-- C6 counterexample: the caption bare-link rule of line 403 never
consults the link-domain exception list, so a caption link whose host
steemit.com is on the exception list is still flagged with reason
"caption external link" under the default `links` setting — the claim
says such a link is never flagged. -/
theorem caption_link_ignores_exception_list :
    url_netloc "http://steemit.com/x" = "steemit.com" ∧
    "steemit.com" ∈ LINKS_EXCEPTIONS ∧
    classify [] (fun _ => none) (fun _ => []) steemit_felinks
      steemit_caption_msg = some "caption external link" := by
  decide

/-- A message whose text is one url entity linking to the excepted host
steemit.com. -/
def steemit_entity_msg : Msg :=
  { chat_id := 1, message_id := 14, from_user_id := 7,
    text := "http://steemit.com/x", caption := none,
    entities := [{ type := "url", offset := 0, length := 20 }],
    forward_from := false, forward_from_chat := false }

/-- C6 amended: a link carried as a url/text_link entity span whose
lowercased host is on the exception list never yields the reason
"external link", for all values of the `links` setting; the caption
bare-link rule, however, does not consult the exception list (see the
counterexample), so only the entity path enjoys the exemption. -/
theorem excepted_host_entity_links_not_flagged (cfg : GroupConfig)
    (r : Resolver) (fulinks felinks : String → List String) (msg : Msg)
    (hh : ∀ e ∈ msg.entities, (e.type = "url" ∨ e.type = "text_link") →
      entity_link_host msg.text e ∈ LINKS_EXCEPTIONS) :
    classify cfg r fulinks felinks msg ≠ some "external link" := by
  intro hc
  unfold classify at hc
  rcases h1 : scan_entities cfg r msg.chat_id msg.text msg.entities
    with _ | s1 <;> simp only [h1] at hc
  · rcases h2 : fallback_reason cfg r msg.chat_id msg with _ | s2 <;>
      simp only [h2] at hc
    · rcases h3 : caption_mention_reason cfg r msg.chat_id
          (fulinks (msg_caption msg)) with _ | s3 <;> simp only [h3] at hc
      · split at hc
        · exact absurd (Option.some.inj hc) (by decide)
        · exact absurd hc (by simp)
      · have hs3 : s3 = "external link" := Option.some.inj hc
        rcases caption_mention_reason_cases cfg r msg.chat_id s3 _ h3
          with h' | h' <;> rw [h'] at hs3 <;> exact absurd hs3 (by decide)
    · have hs2 : s2 = "external link" := Option.some.inj hc
      rcases fallback_reason_cases cfg r msg.chat_id msg s2 h2
        with h' | h' | h' <;> rw [h'] at hs2 <;> exact absurd hs2 (by decide)
  · have hs1 : s1 = "external link" := Option.some.inj hc
    rw [hs1] at h1
    exact scan_entities_excepted_hosts cfg r msg.chat_id msg.text
      msg.entities hh h1

/-- C6 witness: a url entity linking to steemit.com is not flagged as
"external link" even with `links` at its default. -/
theorem excepted_host_entity_links_not_flagged_witness :
    classify [] (fun _ => none) (fun _ => []) (fun _ => [])
      steemit_entity_msg ≠ some "external link" :=
  excepted_host_entity_links_not_flagged [] (fun _ => none) (fun _ => [])
    (fun _ => []) steemit_entity_msg (by decide)

theorem scan_entities_all_user (cfg : GroupConfig) (r : Resolver) (gid : Int)
    (text : String) (hr : ∀ u, r u = some "user") :
    ∀ ents, (∀ e ∈ ents, e.type ≠ "url" ∧ e.type ≠ "text_link" ∧ e.type ≠ "email") →
      scan_entities cfg r gid text ents = none := by
  intro ents
  induction ents with
  | nil => intro _; simp [scan_entities]
  | cons e rest ih =>
    intro hh
    have he := hh e (List.mem_cons_self e rest)
    have htail : ∀ x ∈ rest, x.type ≠ "url" ∧ x.type ≠ "text_link" ∧ x.type ≠ "email" :=
      fun x hx => hh x (List.mem_cons_of_mem e hx)
    unfold scan_entities
    split
    · next hcond =>
        exact absurd hcond.1 (by
          rintro (h' | h')
          · exact he.1 h'
          · exact he.2.1 h')
    · split
      · next hcond => exact absurd hcond.1 he.2.2
      · split
        · split
          · exact ih htail
          · split
            · next hcond =>
              have : (some "user" : Option String) = some "group" := by
                rw [← hr (str_lower (lstrip_at (entity_span text e)))]
                exact hcond.1
              exact absurd (Option.some.inj this) (by decide)
            · split
              · next hcond =>
                have : (some "user" : Option String) = some "channel" := by
                  rw [← hr (str_lower (lstrip_at (entity_span text e)))]
                  exact hcond.1
                exact absurd (Option.some.inj this) (by decide)
              · exact ih htail
        · exact ih htail

theorem free_mention_reason_all_user (cfg : GroupConfig) (r : Resolver)
    (gid : Int) (text : String) (hr : ∀ u, r u = some "user") :
    free_mention_reason cfg r gid text = none := by
  unfold free_mention_reason
  rcases hm : find_free_mention text with _ | u <;> simp only [hm]
  split
  · rfl
  · have h1 : ¬(process_user_type r u = some "group"
        ∧ (get_setting cfg gid "groups" (SettingVal.b true)).truthy = true) := by
      intro hcond
      have : (some "user" : Option String) = some "group" := by
        rw [← hr (str_lower u)]
        exact hcond.1
      exact absurd (Option.some.inj this) (by decide)
    have h2 : ¬(process_user_type r u = some "channel"
        ∧ (get_setting cfg gid "channels" (SettingVal.b true)).truthy = true) := by
      intro hcond
      have : (some "user" : Option String) = some "channel" := by
        rw [← hr (str_lower u)]
        exact hcond.1
      exact absurd (Option.some.inj this) (by decide)
    rw [if_neg h1, if_neg h2]

theorem caption_mention_reason_all_user (cfg : GroupConfig) (r : Resolver)
    (gid : Int) (hr : ∀ u, r u = some "user") :
    ∀ us, caption_mention_reason cfg r gid us = none := by
  intro us
  induction us with
  | nil => rfl
  | cons u rest ih =>
    unfold caption_mention_reason
    have h1 : ¬(process_user_type r (lstrip_at u) = some "group"
        ∧ (get_setting cfg gid "groups" (SettingVal.b true)).truthy = true) := by
      intro hcond
      have : (some "user" : Option String) = some "group" := by
        rw [← hr (str_lower (lstrip_at u))]
        exact hcond.1
      exact absurd (Option.some.inj this) (by decide)
    have h2 : ¬(process_user_type r (lstrip_at u) = some "channel"
        ∧ (get_setting cfg gid "channels" (SettingVal.b true)).truthy = true) := by
      intro hcond
      have : (some "user" : Option String) = some "channel" := by
        rw [← hr (str_lower (lstrip_at u))]
        exact hcond.1
      exact absurd (Option.some.inj this) (by decide)
    rw [if_neg h1, if_neg h2]
    exact ih

/-- C7: when every username resolves to type `user`, a message with no
url, text_link or email entity, no forward origin and no caption bare
link is never flagged: mentions of ordinary users trigger none of the
mention paths (entity span, free-text fallback, caption scan), for every
settings configuration. -/
theorem user_type_mentions_never_flag (cfg : GroupConfig) (r : Resolver)
    (fulinks felinks : String → List String) (msg : Msg)
    (hr : ∀ u, r u = some "user")
    (hent : ∀ e ∈ msg.entities, e.type ≠ "url" ∧ e.type ≠ "text_link" ∧ e.type ≠ "email")
    (hf1 : msg.forward_from = false) (hf2 : msg.forward_from_chat = false)
    (hcap : felinks (msg_caption msg) = []) :
    classify cfg r fulinks felinks msg = none := by
  unfold classify
  rw [scan_entities_all_user cfg r msg.chat_id msg.text hr msg.entities hent]
  have hfb : fallback_reason cfg r msg.chat_id msg = none := by
    unfold fallback_reason
    rw [if_neg (fun hcond => by
      rcases hcond.1 with h' | h'
      · rw [hf1] at h'; exact Bool.false_ne_true h'
      · rw [hf2] at h'; exact Bool.false_ne_true h')]
    exact free_mention_reason_all_user cfg r msg.chat_id msg.text hr
  rw [hfb, caption_mention_reason_all_user cfg r msg.chat_id hr
    (fulinks (msg_caption msg))]
  rw [if_neg (fun hcond => by rw [hcap] at hcond; simp at hcond)]

/-- A resolver on which every username is an ordinary user. -/
def all_user_resolver : Resolver :=
  fun _ => some "user"

/-- A message mentioning `@spam` both as a mention entity and in free
text, with caption mentions; no link, email or forward. -/
def user_mention_msg : Msg :=
  { chat_id := 1, message_id := 15, from_user_id := 7, text := "@spam hi @ spam",
    caption := some "@spam", entities := [{ type := "mention", offset := 0, length := 5 }],
    forward_from := false, forward_from_chat := false }

/-- C7 witness: the concrete mention-heavy message is kept when every
username resolves to an ordinary user. -/
theorem user_type_mentions_never_flag_witness :
    classify [] all_user_resolver (fun c => [c]) (fun _ => [])
      user_mention_msg = none :=
  user_type_mentions_never_flag [] all_user_resolver (fun c => [c])
    (fun _ => []) user_mention_msg (fun _ => rfl) (by decide) rfl rfl rfl

theorem dispatch_channel_no_send (cfg : GroupConfig) (orc : Oracle)
    (msg : Msg) (reason : String) (chid : Int) (c : Int) (s : String) :
    Effect.sendMessage c s ∉ dispatch_channel cfg orc msg reason chid := by
  intro hmem
  simp only [dispatch_channel] at hmem
  split_ifs at hmem <;> simp_all

/-- C10: every public notice the handler sends carries exactly the
template literal of line 430 — its two `%s` placeholders are never
substituted, so the notice content is the same for every offending user
and every deletion reason. (The audit sends to the log channel are
separate effects and do embed the reason.) -/
theorem public_notice_content_fixed (cfg : GroupConfig) (r : Resolver)
    (fulinks felinks : String → List String) (throttle : ThrottleMap)
    (now : Int) (isAdmin : Bool) (orc : Oracle) (msg : Msg) (c : Int)
    (s : String)
    (hmem : Effect.sendMessage c s
      ∈ (handle_any_msg cfg r fulinks felinks throttle now isAdmin orc msg).1) :
    s = notice_text := by
  unfold handle_any_msg at hmem
  rcases hc : classify cfg r fulinks felinks msg with _ | reason <;>
    simp only [hc] at hmem
  · simp at hmem
  · split at hmem
    · simp at hmem
    · split at hmem
      · simp at hmem
      · split at hmem
        · simp at hmem
          exact hmem.2
        · rcases List.mem_append.1 hmem with h1 | h2
          · rcases List.mem_append.1 h1 with h0 | hch
            · split at h0 <;> simp at h0
              exact h0.2
            · rcases List.mem_flatMap.1 hch with ⟨a, _, hmem2⟩
              exact absurd hmem2 (dispatch_channel_no_send cfg orc msg reason a c s)
          · simp at h2

/-- C10 witness: the concrete flagged run does send a public notice, and
its content is the unsubstituted template. -/
theorem public_notice_content_fixed_witness :
    Effect.sendMessage 1 notice_text
      ∈ (handle_any_msg [] demo_resolver (fun _ => []) (fun _ => []) [] 0
          false Oracle.allOk demo_forward_mention_msg).1 ∧
    notice_text = notice_text :=
  ⟨by decide,
   public_notice_content_fixed [] demo_resolver (fun _ => []) (fun _ => [])
     [] 0 false Oracle.allOk demo_forward_mention_msg 1 notice_text (by decide)⟩
